import Mathlib

/-!
Verification of the JZ-Training-demo repository against its natural-language
specification.

The repository is a collection of Python prototype scripts around a
tool-calling chat assistant (MCP client/server pairs) plus a database
population utility.  The relevant Python functions are shallowly embedded
below: Python strings are modelled as `List Char`, fallible code returns
`Option`/`Except`, library calls whose results the repository merely consumes
(the Anthropic model API, the MCP tool RPC, Faker, pyodbc, `arrow.now`) are
modelled as explicit oracle inputs, and process-level effects (`sys.exit`)
are modelled as explicit outcome constructors.
-/

namespace SpecProof

/-! ## Python string primitives (over `List Char`) -/

/-- Python `str.lower()` restricted to the ASCII casing the repository uses. -/
def pyLower (s : List Char) : List Char := s.map Char.toLower

/-- Python `str.strip()` with no argument: drop whitespace from both ends. -/
def pyStripWs (s : List Char) : List Char :=
  ((s.dropWhile Char.isWhitespace).reverse.dropWhile Char.isWhitespace).reverse

/-- The single-quote character `'` (used pervasively by the SQL formatters). -/
def squote : Char := Char.ofNat 39

/-- Index of the first occurrence of `needle` in `hay` (Python `str.find` /
the split points of `str.split`); `none` when `needle` does not occur. -/
def firstOccur (needle : List Char) : List Char → Option Nat
  | [] => if List.isPrefixOf needle ([] : List Char) then some 0 else none
  | c :: t =>
    if List.isPrefixOf needle (c :: t) then some 0
    else (firstOccur needle t).map (· + 1)

/-- Python `needle in hay` substring test. -/
def containsSub (needle hay : List Char) : Bool := (firstOccur needle hay).isSome

/-! ## C1 — `check_tool_call` (src/client.py lines 120-139, first class;
src/sse_client.py lines 69-88)

```python
try:
    if response.stop_reason == "tool_use":
        print("type is tool_use")
        return response.content[1]  # response format is [chat_message, tool_call]
    return False
except Exception as e:
    print(f"Error checking tool call: {e}")
    return None
```
-/

/-- A model response object: a stop reason and a list of content blocks. -/
structure LLMResponse (α : Type) where
  stop_reason : String
  content : List α
deriving DecidableEq

/-- Result of `check_tool_call`: the extracted tool block, Python `False`
(no tool call), or Python `None` (an exception was caught). -/
inductive ToolCheck (α : Type) where
  | tool (block : α)
  | noTool
  | errNone
deriving DecidableEq

/-- `check_tool_call` of src/client.py (first class) and src/sse_client.py:
on stop reason `"tool_use"` it returns `response.content[1]`; the `IndexError`
raised when that index does not exist is caught and turned into `None`;
otherwise it returns `False`. -/
def check_tool_call {α : Type} (response : LLMResponse α) : ToolCheck α :=
  if response.stop_reason = "tool_use" then
    match response.content.get? 1 with
    | some b => ToolCheck.tool b
    | none => ToolCheck.errNone
  else
    ToolCheck.noTool

/-! ## C2 — summary extraction in `summarize_document` (src/server.py lines
79-80) and `summarize_file` (src/sse_server.py lines 132-133)

```python
beginning_summary = response.content[0].text.split("<summary>")[1]
summary = beginning_summary.split("</summary>")[0]            # server.py
summary = beginning_summary.split("</summary>")[0].strip()    # sse_server.py
```
-/

/-- Python `str.split(sep)` for a non-empty separator, written with explicit
fuel (each split step consumes at least one character, so `s.length + 1`
units of fuel in `pySplit` are never exhausted). -/
def pySplitAux (sep : List Char) : Nat → List Char → List (List Char)
  | 0, s => [s]
  | fuel + 1, s =>
    match firstOccur sep s with
    | none => [s]
    | some i => s.take i :: pySplitAux sep fuel (s.drop (i + sep.length))

/-- Python `str.split(sep)` for a non-empty separator. -/
def pySplit (sep s : List Char) : List (List Char) :=
  pySplitAux sep (s.length + 1) s

/-- The opening summary tag. -/
def summaryOpen : List Char := "<summary>".data

/-- The closing summary tag. -/
def summaryClose : List Char := "</summary>".data

/-- Summary extraction of `summarize_document` (src/server.py):
`text.split("<summary>")[1]` raises `IndexError` (modelled as `none`) when
the open tag does not occur; `.split("</summary>")[0]` always exists. -/
def summarize_document_extract (text : List Char) : Option (List Char) :=
  match (pySplit summaryOpen text).get? 1 with
  | none => none
  | some beginning_summary =>
    some ((pySplit summaryClose beginning_summary).headD [])

/-- Summary extraction of `summarize_file` (src/sse_server.py): identical to
`summarize_document` except for a final `.strip()`. -/
def summarize_file_extract (text : List Char) : Option (List Char) :=
  match (pySplit summaryOpen text).get? 1 with
  | none => none
  | some beginning_summary =>
    some (pyStripWs ((pySplit summaryClose beginning_summary).headD []))

/-! ## C3 — broad exception handlers

* `MCPClient.check_tool_call` (src/client.py lines 129-139): catches any
  exception, prints, returns `None` — already modelled by `check_tool_call`
  (`ToolCheck.errNone`).
* `fetch_bitcoin_price` (src/sse_server.py lines 45-69): non-200 status or
  `requests.RequestException` prints and returns `None`; a 200 response whose
  JSON lacks the expected keys raises an uncaught `KeyError`.
* `DatabaseConnection.execute_query` (src/data_pop/database_connection.py
  lines 147-179): on `pyodbc.Error` it prints the error and the query and then
  calls `sys.exit(0)`; the `return None` after it is dead code.
-/

/-- Outcome of the HTTP GET in `fetch_bitcoin_price`, as seen by the code:
a response with a status code and the optional `data["bitcoin"]["usd"]`
value, or a raised `requests.RequestException`. -/
inductive BtcRequest where
  | resp (status : Nat) (usd : Option Int)
  | exn (msg : String)
deriving DecidableEq

/-- A Python error that escapes a function uncaught. -/
inductive PyError where
  | indexError
  | keyError
  | nameError
  | attributeError
  | typeError
deriving DecidableEq

/-- `fetch_bitcoin_price` (src/sse_server.py): returns the price message on a
200 response, `None` on any other status or on `RequestException`; a 200
response without the expected JSON keys raises `KeyError` (uncaught). -/
def fetch_bitcoin_price (r : BtcRequest) : Except PyError (Option String) :=
  match r with
  | BtcRequest.exn _ => Except.ok none
  | BtcRequest.resp status usd =>
    if status = 200 then
      match usd with
      | some p =>
        Except.ok (some ("The current Bitcoin price is " ++ toString p ++ " USD."))
      | none => Except.error PyError.keyError
    else
      Except.ok none

/-- Outcome of `DatabaseConnection.execute_query`: normal return (`None`),
an explicit `return None` from an error handler, or process termination via
`sys.exit(code)`. -/
inductive ExecOutcome where
  | retNone
  | exits (code : Nat)
deriving DecidableEq

/-- `DatabaseConnection.execute_query`: the cursor execution and commit are
modelled by their pyodbc outcome; on success the function returns `None`, on
`pyodbc.Error` it prints the error and the query and calls `sys.exit(0)`
(the `return None` that follows the exit is unreachable). -/
def execute_query (dbOutcome : Except String Unit) : ExecOutcome :=
  match dbOutcome with
  | Except.ok _ => ExecOutcome.retNone
  | Except.error _ => ExecOutcome.exits 0

/-! ## C9 — `detect_datetime_request` (src/client.py lines 398-416,
src/independent_client.py lines 143-161; the two copies are identical)

```python
message = user_message.lower()
time_keywords = ["time", "current time", "what time", "tell me the time"]
date_keywords = ["date", "current date", "what date", "tell me the date"]
both_keywords = ["date and time", "time and date", "current date and time"]
if any(phrase in user_message for phrase in both_keywords): return "both"
elif any(phrase in user_message for phrase in time_keywords): return "time"
elif any(phrase in user_message for phrase in date_keywords): return "date"
else: return "none"
```
Note the lowercased copy `message` is computed but never used: every
membership test runs on the original `user_message`. -/

def time_keywords : List (List Char) :=
  ["time".data, "current time".data, "what time".data, "tell me the time".data]

def date_keywords : List (List Char) :=
  ["date".data, "current date".data, "what date".data, "tell me the date".data]

def both_keywords : List (List Char) :=
  ["date and time".data, "time and date".data, "current date and time".data]

/-- `detect_datetime_request`: the lowercased `message` local is bound but
unused (as in the source); the keyword tests run on `user_message`. -/
def detect_datetime_request (user_message : List Char) : String :=
  let _message := pyLower user_message
  if both_keywords.any (fun phrase => containsSub phrase user_message) then "both"
  else if time_keywords.any (fun phrase => containsSub phrase user_message) then "time"
  else if date_keywords.any (fun phrase => containsSub phrase user_message) then "date"
  else "none"

/-! ## C8 — `gen_is_null` and `generate_fake_property`
(src/data_pop/fake_data_generator.py lines 13-25 and 36-93)

The Faker and `random` library calls are modelled as oracle inputs; the
string produced by `str(fake.pyint())` / `str(fake.pyfloat())` consists of
digits, sign, decimal point and exponent characters only, which the theorems
take as a hypothesis. -/

/-- A value returned by `generate_fake_property`: most branches return a
Python `str`, the `bit` branch returns a Python `int` (`random.choice([0, 1])`). -/
inductive FakeValue where
  | str (s : List Char)
  | int (n : Int)
deriving DecidableEq

/-- Oracle for the library randomness consumed by `generate_fake_property`. -/
structure FakeOracle where
  /-- `random.choice([True, False])` inside `gen_is_null`. -/
  isNullChoice : Bool
  /-- `fake.pystr(min_chars=1, max_chars=max_length)`. -/
  pystr : List Char
  /-- `fake.binary(result_bytes).hex()` (the hex digits). -/
  binHex : List Char
  /-- `random.choice([0, 1])` for the `bit` branch, as a flag. -/
  bitChoice : Bool
  /-- `str(fake.pyint())`. -/
  pyintStr : List Char
  /-- `str(fake.pyfloat())`. -/
  pyfloatStr : List Char
  /-- `fake.date_time().strftime("%Y-%m-%d %H:%M:%S")`. -/
  datetimeStr : List Char
  /-- `fake.date()`. -/
  dateStr : List Char
  /-- `fake.pybool()`. -/
  pybool : Bool

/-- `gen_is_null`: random only when `nullable` is true, otherwise `False`. -/
def gen_is_null (nullable : Bool) (choice : Bool) : Bool :=
  if nullable then choice else false

/-- The SQL string column types of the first branch. -/
def stringTypes : List String := ["varchar", "nvarchar", "char", "text"]

/-- Python slice `s[:m]` for an `int` bound `m` (negative bounds count from
the end). -/
def pySliceTo (s : List Char) (m : Int) : List Char :=
  if 0 ≤ m then s.take m.toNat else s.take (s.length - m.natAbs)

/-- `generate_fake_property` over the library oracle.  The `"NULL"` string is
returned exactly on the `is_null` branch; `max_length` defaults to 25 for
`None`/`-1` (and again via Python `or` when it is falsy, i.e. `0`); the
string branch single-quotes the Faker string truncated to `max_length`;
unsupported types raise `ValueError` (the `Except.error` case). -/
def generate_fake_property (property_type : String) (nullable : Bool)
    (max_length : Option Int) (o : FakeOracle) : Except String FakeValue :=
  let is_null := gen_is_null nullable o.isNullChoice
  if is_null then Except.ok (FakeValue.str "NULL".data)
  else
    let max_length : Option Int :=
      if max_length = none ∨ max_length = some (-1) then some 25 else max_length
    if property_type ∈ stringTypes then
      let m : Int :=
        match max_length with
        | none => 25
        | some v => if v = 0 then 25 else v
      Except.ok (FakeValue.str ([squote] ++ pySliceTo o.pystr m ++ [squote]))
    else if property_type = "varbinary" then
      Except.ok (FakeValue.str ("0x".data ++ o.binHex))
    else if property_type = "bit" then
      Except.ok (FakeValue.int (if o.bitChoice then 1 else 0))
    else if property_type = "int" then
      Except.ok (FakeValue.str o.pyintStr)
    else if property_type = "float" then
      Except.ok (FakeValue.str o.pyfloatStr)
    else if property_type = "datetime" then
      Except.ok (FakeValue.str ([squote] ++ o.datetimeStr ++ [squote]))
    else if property_type = "date" then
      Except.ok (FakeValue.str ([squote] ++ o.dateStr ++ [squote]))
    else if property_type = "bool" then
      Except.ok (FakeValue.str (if o.pybool then "TRUE".data else "FALSE".data))
    else
      Except.error ("Unsupported type: " ++ property_type)

/-- The characters `str()` can produce for a Python `int` or `float`. -/
def decimalish (s : List Char) : Bool :=
  s.all (fun c => c.isDigit || c == '-' || c == '.' || c == '+' || c == 'e')

/-! ## C10 — the `format_value` helpers of `DatabasePopulator.create_query`
(src/data_pop/database_populator.py lines 258-303) and
`DatabasePopulator.create_query_for_row` (lines 354-392)

The two helpers share the `None`/`"NULL"`, `ATTACHMENT_BODY` and
date-column branches (the date branch depends on Python `strptime`, which is
taken as a parameter `parseDt` returning the re-rendered datetime on success);
they differ in the plain-string branch (`strip("'")` versus
`replace("'", "''")`) and in the `ATTACHMENT_BODY` fallback. -/

/-- A Python value reaching `format_value`: a `str`, a `bytes`, a `datetime`
(carried as its `strftime("%Y-%m-%d %H:%M:%S.%f")` rendering), `None`, or an
`int` (any other value). -/
inductive PyVal where
  | pstr (s : List Char)
  | pbytes (b : List Nat)
  | pdt (d : List Char)
  | pnone
  | pint (n : Int)
deriving DecidableEq

/-- Lower-case hex digit of `n < 16`. -/
def hexDigit (n : Nat) : Char :=
  if n < 10 then Char.ofNat (48 + n) else Char.ofNat (87 + n)

/-- Two hex digits of a byte. -/
def byteHex (n : Nat) : List Char := [hexDigit (n / 16), hexDigit (n % 16)]

/-- `s.encode("latin1").hex()`: fails (raising `UnicodeEncodeError`) whenever
some character is above U+00FF. -/
def latin1Hex (s : List Char) : Option (List Char) :=
  if s.all (fun c => c.toNat < 256) then
    some ((s.map (fun c => byteHex c.toNat)).flatten)
  else none

/-- Python `str(value)` for the values that reach the fallback branches
(only the `pstr` and `pint` cases are exercised by the theorems below; the
`bytes` rendering abstracts from Python's escaping of non-printable bytes). -/
def pyStr : PyVal → List Char
  | PyVal.pstr s => s
  | PyVal.pint n => (toString n).data
  | PyVal.pbytes b => "b".data ++ [squote] ++ (b.map byteHex).flatten ++ [squote]
  | PyVal.pdt d => d
  | PyVal.pnone => "None".data

/-- Python `strip("'")`: remove single quotes from both ends. -/
def pyStripQuotes (s : List Char) : List Char :=
  ((s.dropWhile (fun c => c == squote)).reverse.dropWhile (fun c => c == squote)).reverse

/-- Python `replace("'", "''")`: double every single quote. -/
def pyReplaceQuote (s : List Char) : List Char :=
  (s.map (fun c => if c == squote then [squote, squote] else [c])).flatten

/-- The binary column treated specially by both helpers. -/
def attachment_body : List Char := "ATTACHMENT_BODY".data

/-- The date columns treated specially by both helpers. -/
def special_date_cols : List (List Char) :=
  ["CREATED_DATE".data, "LAST_UPDATED_DATE".data]

/-- The shared `ATTACHMENT_BODY` string case: strip a `b'...'` wrapper, then
hex via latin1 (the `UnicodeEncodeError` fallback quotes the raw string). -/
def attachmentStrCase (s : List Char) : List Char :=
  let s :=
    if List.isPrefixOf ("b".data ++ [squote]) s && s.getLast? == some squote then
      (s.drop 2).dropLast
    else s
  match latin1Hex s with
  | some h => "CONVERT(varbinary(max), 0x".data ++ h ++ ")".data
  | none =>
    "CONVERT(varbinary(max), ".data ++ [squote] ++ s ++ [squote] ++ ")".data

/-- `format_value` nested in `create_query` (bulk insert).  The plain-string
branch strips surrounding quotes: `clean_val = raw_value.strip("'")`. -/
def create_query_format_value (parseDt : List Char → Option (List Char))
    (raw_value : PyVal) (col_name : List Char) : List Char :=
  if raw_value = PyVal.pnone ∨ raw_value = PyVal.pstr "NULL".data then
    "NULL".data
  else if col_name = attachment_body then
    match raw_value with
    | PyVal.pstr s => attachmentStrCase s
    | PyVal.pbytes b =>
      "CONVERT(varbinary(max), 0x".data ++ (b.map byteHex).flatten ++ ")".data
    | v =>
      "CONVERT(varbinary(max), ".data ++ [squote] ++ pyStr v ++ [squote] ++ ")".data
  else if col_name ∈ special_date_cols then
    match raw_value with
    | PyVal.pstr s =>
      match parseDt s with
      | some r => [squote] ++ r ++ [squote]
      | none => "NULL".data
    | PyVal.pdt d => [squote] ++ d ++ [squote]
    | _ => "NULL".data
  else
    match raw_value with
    | PyVal.pstr s => [squote] ++ pyStripQuotes s ++ [squote]
    | v => pyStr v

/-- `format_value` nested in `create_query_for_row` (single row).  The
plain-string branch doubles quotes (`replace("'", "''")`), and the
`ATTACHMENT_BODY` fallback for unexpected types is `NULL`. -/
def create_query_for_row_format_value (parseDt : List Char → Option (List Char))
    (raw_value : PyVal) (col_name : List Char) : List Char :=
  if raw_value = PyVal.pnone ∨ raw_value = PyVal.pstr "NULL".data then
    "NULL".data
  else if col_name = attachment_body then
    match raw_value with
    | PyVal.pstr s => attachmentStrCase s
    | PyVal.pbytes b =>
      "CONVERT(varbinary(max), 0x".data ++ (b.map byteHex).flatten ++ ")".data
    | _ => "NULL".data
  else if col_name ∈ special_date_cols then
    match raw_value with
    | PyVal.pstr s =>
      match parseDt s with
      | some r => [squote] ++ r ++ [squote]
      | none => "NULL".data
    | PyVal.pdt d => [squote] ++ d ++ [squote]
    | _ => "NULL".data
  else
    match raw_value with
    | PyVal.pstr s => [squote] ++ pyReplaceQuote s ++ [squote]
    | v => pyStr v

/-- A trivial `strptime` stand-in for concrete evaluations. -/
def noParse : List Char → Option (List Char) := fun _ => none

/-! ## Chat loops (C4, C5, C6, C7)

src/client.py contains two `MCPClient` classes.  The first (lines 26-184)
has the simple `chat_loop` of lines 155-181; the second (lines 265-608)
has the buggy `chat_loop` of lines 557-605.  Model and tool-RPC calls are
oracle inputs; Python errors abort the iteration (`Except.error`). -/

/-- A transcript entry: a role-tagged message. -/
structure Msg where
  role : String
  content : List Char
deriving DecidableEq

/-- A model content block (text blocks and tool-use blocks share this shape;
`type` is `"text"` or `"tool_use"`). -/
structure Block where
  type : String
  text : List Char
  name : List Char
  input : List (String × List Char)
deriving DecidableEq

/-- A text block of a tool result. -/
structure TextBlock where
  text : List Char
deriving DecidableEq

/-- The MCP `call_tool` result object. -/
structure ToolResult where
  content : List TextBlock
deriving DecidableEq

/-- The hardcoded `fake_news_story` constant; its exact text plays no role in
any claim (only whether the document input was blank), so the embedding keeps
its headline only. -/
def fake_news_story : List Char :=
  "Gas Flare Bitcoin Miners Cut Methane Emissions in Permian Basin".data

/-- Trace events: issue/return of the two kinds of external requests. -/
inductive Ev where
  | startLLM
  | endLLM
  | startRPC
  | endRPC
deriving DecidableEq

/-- A request kind, for the outstanding-request scanner. -/
inductive ReqKind where
  | llm
  | rpc
deriving DecidableEq

/-- Scanner for "at most one outstanding external request": the event trace
must alternate `start k` / `end k`; any second `start` before the matching
`end` (or an unmatched `end`, or a trace ending mid-request) fails. -/
def chk : Option ReqKind → List Ev → Bool
  | none, [] => true
  | none, Ev.startLLM :: t => chk (some ReqKind.llm) t
  | none, Ev.startRPC :: t => chk (some ReqKind.rpc) t
  | some ReqKind.llm, Ev.endLLM :: t => chk none t
  | some ReqKind.rpc, Ev.endRPC :: t => chk none t
  | _, _ => false

/-- Local state of the first `chat_loop` (lines 155-181). -/
structure ChatState1 where
  messages : List Msg
  user_message : List Char
  document_content : List Char
deriving DecidableEq

/-- Oracle for one iteration of the first loop: the model response, the tool
RPC, and the `input()` line read at the end of the iteration. -/
structure ChatOracle where
  llmRespond : List Msg → LLMResponse Block
  callTool : List Char → List (String × List Char) → ToolResult
  nextInput : List Char

/-- The initial prompt `send_message` (first class, lines 89-118) builds when
the history is empty. -/
def chat_prompt1 (user_message document_content : List Char) : List Char :=
  "You are a helpful assistant, you have the ability to call tools to achieve user requests.\n\n".data
    ++ "User request: ".data ++ user_message ++ "\n\n".data
    ++ "Document content: ".data ++ document_content ++ "\n\n".data

/-- `send_message` of the first class: `if not messages:` rebinds the local
name to a fresh list when the caller's list is empty, so the prompt append is
invisible to the caller in that case; otherwise the user message is appended
to the caller's list.  Returns the caller-visible list and the response. -/
def send_message1 (o : ChatOracle) (document_content : List Char)
    (user_message : List Char) (messages : List Msg) :
    List Msg × LLMResponse Block :=
  if messages = [] then
    ([], o.llmRespond [⟨"user", chat_prompt1 user_message document_content⟩])
  else
    let sent := messages ++ [⟨"user", user_message⟩]
    (sent, o.llmRespond sent)

/-- One iteration of the first `chat_loop` (lines 161-181).  The single model
call inside `send_message` and the tool RPC contribute the trace events; the
`IndexError` of `response.content[0]` / `tool_response.content[0]` on an
empty content list is uncaught. -/
def chat_loop_iter (o : ChatOracle) (st : ChatState1) :
    List Ev × Except PyError ChatState1 :=
  let document_content :=
    if st.document_content = [] then fake_news_story else st.document_content
  if st.user_message = [] then
    ([], Except.ok { st with document_content := document_content })
  else
    let sm := send_message1 o document_content st.user_message st.messages
    let msgs1 := sm.1
    let response := sm.2
    match response.content.get? 0 with
    | none => ([Ev.startLLM, Ev.endLLM], Except.error PyError.indexError)
    | some first =>
      let llm_text_response := pyStripWs first.text
      let msgs2 := msgs1 ++ [⟨"assistant", llm_text_response⟩]
      match check_tool_call response with
      | ToolCheck.tool b =>
        let tool_response := o.callTool b.name b.input
        match tool_response.content.get? 0 with
        | none =>
          ([Ev.startLLM, Ev.endLLM, Ev.startRPC, Ev.endRPC],
            Except.error PyError.indexError)
        | some t0 =>
          let msgs3 :=
            msgs2 ++ [⟨"assistant", "Tool summary: ".data ++ pyStripWs t0.text⟩]
          ([Ev.startLLM, Ev.endLLM, Ev.startRPC, Ev.endRPC],
            Except.ok ⟨msgs3, o.nextInput, document_content⟩)
      | _ =>
        let msgs3 := msgs2 ++ [⟨"assistant", llm_text_response⟩]
        ([Ev.startLLM, Ev.endLLM], Except.ok ⟨msgs3, o.nextInput, document_content⟩)

/-- Run `n` iterations of the first loop (stopping at an uncaught error),
collecting the event trace. -/
def chat_loop_run (o : Nat → ChatOracle) (st : ChatState1) :
    Nat → List Ev × Except PyError ChatState1
  | 0 => ([], Except.ok st)
  | n + 1 =>
    match chat_loop_iter (o 0) st with
    | (tr, Except.error e) => (tr, Except.error e)
    | (tr, Except.ok st1) =>
      let rest := chat_loop_run (fun i => o (i + 1)) st1 n
      (tr ++ rest.1, rest.2)

/-! ### Second `MCPClient` class (src/client.py lines 265-608) -/

/-- The attributes of the second `MCPClient` relevant to the chat loop (the
`exit_stack`, Anthropic client, geolocator and timezone finder are opaque
handles that no loop statement ever rebinds; the transport and session
handles are carried as abstract values). -/
structure Client where
  tools : List String
  stdio : Nat
  write : Nat
  session : Nat
  time_format_24hr : Bool
deriving DecidableEq

/-- The command list of the time-format toggle (src/client.py lines 566-567).
Note the source's adjacent string literals `"12 hour" "24 hour"` concatenate
into the single element `"12 hour24 hour"`. -/
def toggle_commands : List (List Char) :=
  ["switch to 12-hour".data, "switch to 24-hour".data, "switch time format".data,
   "change time format".data, "12 hour24 hour".data, "switch format".data]

/-- The phrase list of `is_time_or_date_request` (src/client.py lines
365-390); note the trailing space in `"want the time and date "`. -/
def time_date_phrases : List (List Char) :=
  ["what time is it".data, "what is the time".data, "give me the time".data,
   "tell me the time".data, "current time".data, "want the date".data,
   "want the time".data, "want the time and date ".data, "what is the date".data,
   "give me the date".data, "tell me the date".data, "give me time".data,
   "give me date".data, "give me time and date".data, "current date".data,
   "what is the date and time".data, "give me the date and time".data,
   "can you tell me the time".data, "can you tell me the date".data,
   "date and time".data, "can i get the date".data, "can i get the time".data,
   "can i get the date and time".data, "can i get the time and date".data]

/-- `is_time_or_date_request` (src/client.py lines 361-396): lowercase and
strip the message, then test the phrase list by substring. -/
def is_time_or_date_request (user_message : List Char) : Bool :=
  let m := pyStripWs (pyLower user_message)
  time_date_phrases.any (fun phrase => containsSub phrase m)

/-- `to_kebab_case` (src/client.py lines 632-633): insert `-` before every
non-initial uppercase letter, then lowercase everything. -/
def to_kebab_aux : List Char → List Char
  | [] => []
  | c :: t => if c.isUpper then '-' :: c.toLower :: to_kebab_aux t
              else c :: to_kebab_aux t

/-- `to_kebab_case`, entry point (the first character is never prefixed). -/
def to_kebab_case : List Char → List Char
  | [] => []
  | c :: t => c.toLower :: to_kebab_aux t

/-- The response of the second `send_message`: a plain
`{"content": ...}` dict on the time/date path, or `response.content`
(a list of blocks) from the model call. -/
inductive Resp2 where
  | contentDict (s : List Char)
  | blocks (bs : List Block)
deriving DecidableEq

/-- Oracle for one iteration of the second loop: the two `input()` lines,
the model call, the geocoded timezone, the rendered `arrow.now` answer and
the tool RPC result. -/
structure ChatOracle2 where
  userInput : List Char
  docInput : List Char
  llm : List Msg → List Block
  tzResult : Option String
  nowStr : List Char
  toolResult : ToolResult
  trailingInput : List Char

/-- The chat prompt of the second `send_message` (lines 473-475). -/
def chat_prompt2 (user_message document_content : List Char) : List Char :=
  "You are a helpful API, you have the ability to call tools to achieve user requests.\n\n".data
    ++ "User request: ".data ++ user_message ++ "\n\n".data
    ++ "Document content: ".data ++ document_content ++ "\n\n".data

/-- The "system prompt" the second `send_message` appends as a user message
(line 477). -/
def system_prompt2 : List Char :=
  "We are testing a tool calling model, reply with a choice of available tools.".data

/-- The content message built at lines 483-489. -/
def content_msg (user_message document_content : List Char) : List Char :=
  if user_message ≠ [] then
    "Document content: ".data ++ document_content ++ "\n\nUser message: ".data
      ++ user_message
  else
    "Document content: ".data ++ document_content

/-- The second `send_message` (lines 459-497): on a time/date request it
prints and returns a `{"content": ...}` dict without touching the history;
otherwise it appends the chat prompt, the system prompt and the content
message, calls the model and returns `response.content`.  As in the first
class, `if not messages: messages = []` makes the appends invisible to the
caller when the caller's list is empty. -/
def send_message2 (o : ChatOracle2) (user_message document_content : List Char)
    (messages : List Msg) : List Msg × Resp2 :=
  if is_time_or_date_request user_message then
    (messages, Resp2.contentDict o.nowStr)
  else
    let appended : List Msg :=
      [⟨"user", chat_prompt2 user_message document_content⟩,
       ⟨"user", system_prompt2⟩,
       ⟨"user", content_msg user_message document_content⟩]
    let sent := messages ++ appended
    ((if messages = [] then [] else sent), Resp2.blocks (o.llm sent))

/-- The second `check_tool_call` (lines 503-542): a `{"content": ...}` dict
yields `None`; a block list yields its first `tool_use` block, and when no
such block exists the fall-through `response[0]["type"]` subscript of a block
object raises `TypeError` (or `IndexError` on an empty list), which the broad
handler turns into `None`. -/
def check_tool_call2 (response : Resp2) : Option Block :=
  match response with
  | Resp2.contentDict _ => none
  | Resp2.blocks bs =>
    match bs.find? (fun b => b.type == "tool_use") with
    | some b => some b
    | none => none

/-- One iteration of the second `chat_loop` (lines 563-605).  The toggle and
time/date branches `continue`; the tool branch performs the RPC, appends the
summary and then reaches the duplicated block's `self.parse_tool_call`, a
method that does not exist (`AttributeError`); the else branch appends
`llm_text_response`, a name bound on no path of this function
(`NameError`). -/
def chat_loop_iter2 (o : ChatOracle2) (cl : Client) (msgs : List Msg)
    (doc : List Char) : Except PyError (Client × List Msg × List Char) :=
  let user_message := pyStripWs o.userInput
  if pyLower user_message ∈ toggle_commands then
    Except.ok ({ cl with time_format_24hr := !cl.time_format_24hr }, msgs, doc)
  else
    let datetime_request := detect_datetime_request user_message
    if datetime_request ≠ "none" then
      Except.ok (cl, msgs, doc)
    else
      let document_content := o.docInput
      let sm := send_message2 o user_message document_content msgs
      let msgs1 := sm.1
      let response := sm.2
      match check_tool_call2 response with
      | some tool_call =>
        let _tool_name := to_kebab_case tool_call.name
        let tool_response := o.toolResult
        match tool_response.content.get? 0 with
        | none => Except.error PyError.indexError
        | some t0 =>
          let _msgs2 :=
            msgs1 ++ [⟨"assistant", "Tool summary: ".data ++ pyStripWs t0.text⟩]
          Except.error PyError.attributeError
      | none => Except.error PyError.nameError

/-- A client value for concrete runs. -/
def client0 : Client := ⟨[], 0, 0, 0, true⟩

/-- An oracle whose user line is an ordinary message and whose model response
contains no tool-use block. -/
def oracle2_hello : ChatOracle2 :=
  ⟨"hello".data, "doc".data, fun _ => [], none, [], ⟨[]⟩, []⟩

/-- An oracle whose user line is the toggle command `switch format`. -/
def oracle2_toggle : ChatOracle2 :=
  ⟨"switch format".data, [], fun _ => [], none, [], ⟨[]⟩, []⟩

/-! ## Theorems -/

/-- C1: for every model response with at least the two content blocks the code
assumes (`[chat_message, tool_call]`), `check_tool_call` returns the element
at index 1 of `response.content` exactly when `response.stop_reason` equals
`"tool_use"`, and returns `False` otherwise. -/
theorem C1_check_tool_call_spec {α : Type} (r : LLMResponse α)
    (h : 2 ≤ r.content.length) :
    (r.stop_reason = "tool_use" →
      check_tool_call r = ToolCheck.tool (r.content.get ⟨1, by omega⟩)) ∧
    (r.stop_reason ≠ "tool_use" → check_tool_call r = ToolCheck.noTool) := by
  constructor
  · intro hs
    have h1 : 1 < r.content.length := by omega
    simp [check_tool_call, hs, List.getElem?_eq_getElem h1]
  · intro hs
    simp [check_tool_call, hs]

/-- Witness for C1 at a concrete response. -/
theorem C1_check_tool_call_spec_witness :
    check_tool_call ⟨"tool_use", [10, 7]⟩ = ToolCheck.tool 7 ∧
    check_tool_call ⟨"end_turn", [10, 7]⟩ = ToolCheck.noTool :=
  ⟨(C1_check_tool_call_spec ⟨"tool_use", [10, 7]⟩ (by decide)).1 rfl,
   (C1_check_tool_call_spec ⟨"end_turn", [10, 7]⟩ (by decide)).2 (by decide)⟩

theorem pySplitAux_of_none (sep s : List Char) (h : firstOccur sep s = none) :
    ∀ fuel, pySplitAux sep fuel s = [s] := by
  intro fuel
  cases fuel with
  | zero => rfl
  | succ n => simp [pySplitAux, h]

theorem pySplit_pair (sep t : List Char) (i : Nat)
    (h : firstOccur sep t = some i)
    (h2 : firstOccur sep (t.drop (i + sep.length)) = none) :
    pySplit sep t = [t.take i, t.drop (i + sep.length)] := by
  unfold pySplit
  simp [pySplitAux, h, pySplitAux_of_none _ _ h2]

theorem pySplit_head? (sep s : List Char) (i : Nat)
    (h : firstOccur sep s = some i) :
    (pySplit sep s).head? = some (s.take i) := by
  unfold pySplit
  simp [pySplitAux, h]

theorem pySplit_head?_of_none (sep s : List Char)
    (h : firstOccur sep s = none) :
    (pySplit sep s).head? = some s := by
  unfold pySplit
  simp [pySplitAux, h]

/-- C2 counterexample: on the text `"<summary>abc"`, which contains the open
tag but lacks the close tag, the extraction returns `"abc"` normally instead
of raising an index error as the claim states. -/
theorem C2_counterexample :
    containsSub summaryOpen "<summary>abc".data = true ∧
    containsSub summaryClose "<summary>abc".data = false ∧
    summarize_document_extract "<summary>abc".data = some "abc".data := by
  refine ⟨by decide, by decide, by decide⟩

/-- C2 (amended): when `"<summary>"` occurs exactly once, the extraction of
`summarize_document` returns exactly the substring strictly between the first
`"<summary>"` and the first subsequent `"</summary>"` (`summarize_file`
returns that substring stripped of surrounding whitespace); when the open tag
is absent the code raises `IndexError`; when the open tag is present but no
`"</summary>"` follows, the code returns the whole remainder after the open
tag instead of raising. -/
theorem C2_extract_spec (t : List Char) :
    (firstOccur summaryOpen t = none → summarize_document_extract t = none) ∧
    (∀ i, firstOccur summaryOpen t = some i →
      firstOccur summaryOpen (t.drop (i + summaryOpen.length)) = none →
      (∀ j, firstOccur summaryClose (t.drop (i + summaryOpen.length)) = some j →
        summarize_document_extract t =
          some ((t.drop (i + summaryOpen.length)).take j) ∧
        summarize_file_extract t =
          some (pyStripWs ((t.drop (i + summaryOpen.length)).take j))) ∧
      (firstOccur summaryClose (t.drop (i + summaryOpen.length)) = none →
        summarize_document_extract t =
          some (t.drop (i + summaryOpen.length)))) := by
  constructor
  · intro h
    have hs : pySplit summaryOpen t = [t] :=
      pySplitAux_of_none _ _ h _
    simp [summarize_document_extract, hs]
  · intro i hi hno
    have hs : pySplit summaryOpen t = [t.take i, t.drop (i + summaryOpen.length)] :=
      pySplit_pair _ _ _ hi hno
    constructor
    · intro j hj
      constructor
      · simp [summarize_document_extract, hs, pySplit_head? _ _ _ hj]
      · simp [summarize_file_extract, hs, pySplit_head? _ _ _ hj]
    · intro hcn
      simp [summarize_document_extract, hs, pySplit_head?_of_none _ _ hcn]

/-- Witness for C2 (amended) at a concrete text with one tag pair. -/
theorem C2_extract_spec_witness :
    summarize_document_extract "x<summary>ab</summary>y".data = some "ab".data :=
  (((C2_extract_spec "x<summary>ab</summary>y".data).2 1 (by decide)
      (by decide)).1 2 (by decide)).1

/-- C3 counterexample: on a failing pyodbc execution, `execute_query`
terminates the process with `sys.exit(0)` instead of returning `None` to its
caller, so not every broad handler leaves the process running. -/
theorem C3_counterexample :
    execute_query (Except.error "pyodbc: table not found") = ExecOutcome.exits 0 ∧
    ExecOutcome.exits 0 ≠ ExecOutcome.retNone := by
  exact ⟨rfl, by decide⟩

/-- C3 (amended): the broad handlers of `check_tool_call` and
`fetch_bitcoin_price` print a message and return `None`/`False`, leaving the
caller in control; but `execute_query` is the exception: on a pyodbc error it
prints a message and terminates the process with `sys.exit(0)`, its
`return None` being dead code. -/
theorem C3_error_handlers {α : Type} :
    (∀ r : LLMResponse α, r.stop_reason = "tool_use" → r.content.get? 1 = none →
      check_tool_call r = ToolCheck.errNone) ∧
    (∀ m : String, fetch_bitcoin_price (BtcRequest.exn m) = Except.ok none) ∧
    (∀ status usd, status ≠ 200 →
      fetch_bitcoin_price (BtcRequest.resp status usd) = Except.ok none) ∧
    (∀ e : String, execute_query (Except.error e) = ExecOutcome.exits 0) := by
  refine ⟨?_, ?_, ?_, ?_⟩
  · intro r hs hg
    rw [List.get?_eq_getElem?] at hg
    simp [check_tool_call, hs, hg]
  · intro m
    rfl
  · intro status usd hst
    simp [fetch_bitcoin_price, hst]
  · intro e
    rfl

/-- Witness for C3 (amended) at concrete inputs. -/
theorem C3_error_handlers_witness :
    check_tool_call ⟨"tool_use", ([] : List Nat)⟩ = ToolCheck.errNone ∧
    fetch_bitcoin_price (BtcRequest.resp 500 none) = Except.ok none :=
  ⟨(C3_error_handlers (α := Nat)).1 ⟨"tool_use", []⟩ rfl rfl,
   (C3_error_handlers (α := Nat)).2.2.1 500 none (by decide)⟩

/-- C9 counterexample: on the message `"WHAT TIME IS IT"`,
`detect_datetime_request` answers `"none"`, but on its lowercased form it
answers `"time"`: the function is not case-insensitive (the keyword tests run
on the original message, not the computed lowercased copy). -/
theorem C9_counterexample :
    detect_datetime_request "WHAT TIME IS IT".data = "none" ∧
    detect_datetime_request (pyLower "WHAT TIME IS IT".data) = "time" ∧
    ("none" : String) ≠ "time" := ⟨by decide, by decide, by decide⟩

/-- C9 (amended): `detect_datetime_request` matches its keyword lists against
the original, non-lowercased message (the lowercased copy it computes is
unused), so it agrees with its value on the lowercased form exactly for
messages that are already lowercase. -/
theorem C9_detect_datetime_lower (user_message : List Char)
    (h : pyLower user_message = user_message) :
    detect_datetime_request user_message =
      detect_datetime_request (pyLower user_message) := by
  rw [h]

/-- Witness for C9 (amended) at a concrete lowercase message. -/
theorem C9_detect_datetime_lower_witness :
    detect_datetime_request "what time is it".data =
      detect_datetime_request (pyLower "what time is it".data) :=
  C9_detect_datetime_lower "what time is it".data (by decide)

/-- C8: with `nullable=False` the null coin is never flipped
(`gen_is_null False _ = False`) and the result is never the string `"NULL"`;
for the string column types the result is a single-quoted literal of the
truncated Faker string, whose inner length lies between 1 and the effective
`max_length` (which defaults to 25 for `None` and `-1`), given Faker's
contract that `pystr(min_chars=1, max_chars=n)` returns 1 to `n` characters. -/
theorem C8_generate_fake_property (property_type : String)
    (max_length : Option Int) (o : FakeOracle)
    (hint : decimalish o.pyintStr = true) (hflt : decimalish o.pyfloatStr = true) :
    gen_is_null false o.isNullChoice = false ∧
    generate_fake_property property_type false max_length o ≠
      Except.ok (FakeValue.str "NULL".data) ∧
    (property_type ∈ stringTypes →
      (max_length = none ∨ max_length = some (-1) →
        generate_fake_property property_type false max_length o =
          Except.ok (FakeValue.str ([squote] ++ o.pystr.take 25 ++ [squote])) ∧
        (1 ≤ o.pystr.length → o.pystr.length ≤ 25 →
          1 ≤ (o.pystr.take 25).length ∧ (o.pystr.take 25).length ≤ 25)) ∧
      (∀ mv : Int, max_length = some mv → 1 ≤ mv →
        generate_fake_property property_type false max_length o =
          Except.ok (FakeValue.str ([squote] ++ o.pystr.take mv.toNat ++ [squote])) ∧
        (1 ≤ o.pystr.length → o.pystr.length ≤ mv.toNat →
          1 ≤ (o.pystr.take mv.toNat).length ∧
            (o.pystr.take mv.toNat).length ≤ mv.toNat))) := by
  have hnull : gen_is_null false o.isNullChoice = false := rfl
  refine ⟨hnull, ?_, ?_⟩
  · unfold generate_fake_property
    rw [hnull]
    simp only [Bool.false_eq_true, if_false]
    split
    · intro h
      simp only [Except.ok.injEq, FakeValue.str.injEq, List.cons_append,
        List.append_assoc] at h
      have : squote = 'N' := by
        have := congrArg (fun l => l.headD ' ') h
        simpa using this
      exact absurd this (by decide)
    · split
      · intro h
        simp only [Except.ok.injEq, FakeValue.str.injEq] at h
        have : '0' = 'N' := by
          have := congrArg (fun l => l.headD ' ') h
          simpa using this
        exact absurd this (by decide)
      · split
        · simp
        · split
          · intro h
            simp only [Except.ok.injEq, FakeValue.str.injEq] at h
            have hm : 'N' ∈ o.pyintStr := by rw [h]; decide
            have hp := List.all_eq_true.mp hint 'N' hm
            exact absurd hp (by decide)
          · split
            · intro h
              simp only [Except.ok.injEq, FakeValue.str.injEq] at h
              have hm : 'N' ∈ o.pyfloatStr := by rw [h]; decide
              have hp := List.all_eq_true.mp hflt 'N' hm
              exact absurd hp (by decide)
            · split
              · intro h
                simp only [Except.ok.injEq, FakeValue.str.injEq,
                  List.cons_append] at h
                have : squote = 'N' := by
                  have := congrArg (fun l => l.headD ' ') h
                  simpa using this
                exact absurd this (by decide)
              · split
                · intro h
                  simp only [Except.ok.injEq, FakeValue.str.injEq,
                    List.cons_append] at h
                  have : squote = 'N' := by
                    have := congrArg (fun l => l.headD ' ') h
                    simpa using this
                  exact absurd this (by decide)
                · split
                  · rcases o.pybool <;> simp
                  · simp
  · intro hstr
    constructor
    · intro hml
      have he : generate_fake_property property_type false max_length o =
          Except.ok (FakeValue.str ([squote] ++ o.pystr.take 25 ++ [squote])) := by
        unfold generate_fake_property
        rw [hnull]
        simp only [Bool.false_eq_true, if_false]
        rcases hml with hml | hml <;>
          simp [hml, hstr, pySliceTo, Int.toNat_ofNat]
      refine ⟨he, ?_⟩
      intro h1 h2
      rw [List.length_take]
      omega
    · intro mv hml hmv
      have hne : ¬(max_length = none ∨ max_length = some (-1)) := by
        rw [hml]
        rintro (h | h) <;> simp_all
      have hmz : mv ≠ 0 := by omega
      have he : generate_fake_property property_type false max_length o =
          Except.ok (FakeValue.str ([squote] ++ o.pystr.take mv.toNat ++ [squote])) := by
        unfold generate_fake_property
        rw [hnull]
        simp only [Bool.false_eq_true, if_false]
        rw [if_neg hne]
        simp [hstr, hml, hmz, pySliceTo, Int.le_of_lt, le_of_lt, hmv,
          show (0 : Int) ≤ mv by omega]
      refine ⟨he, ?_⟩
      intro h1 h2
      rw [List.length_take]
      omega

/-- Witness for C8 at a concrete call (`varchar`, `max_length=None`). -/
theorem C8_generate_fake_property_witness :
    generate_fake_property "varchar" false none
        ⟨false, "ab".data, [], false, "7".data, "1.5".data, [], [], false⟩ =
      Except.ok (FakeValue.str ([squote] ++ "ab".data ++ [squote])) :=
  (((C8_generate_fake_property "varchar" none
      ⟨false, "ab".data, [], false, "7".data, "1.5".data, [], [], false⟩
      (by decide) (by decide)).2.2 (by decide)).1 (Or.inl rfl)).1

/-- C10 counterexample: on the plain string `a'b` (one embedded single quote)
and ordinary column `X`, the bulk formatter emits `'a'b'` (it only strips
quotes at the ends, escaping nothing) while the single-row formatter emits
`'a''b'`, so the two helpers disagree and only one doubles embedded quotes. -/
theorem C10_counterexample :
    create_query_format_value noParse (PyVal.pstr ['a', squote, 'b']) "X".data =
      [squote, 'a', squote, 'b', squote] ∧
    create_query_for_row_format_value noParse (PyVal.pstr ['a', squote, 'b']) "X".data =
      [squote, 'a', squote, squote, 'b', squote] ∧
    ([squote, 'a', squote, 'b', squote] : List Char) ≠
      [squote, 'a', squote, squote, 'b', squote] := by
  refine ⟨by decide, by decide, by decide⟩

theorem dropWhile_squote_of_not_mem (s : List Char) (h : squote ∉ s) :
    s.dropWhile (fun c => c == squote) = s := by
  cases s with
  | nil => rfl
  | cons c t =>
    have hc : ¬(c == squote) = true := by
      simp only [beq_iff_eq]
      intro hc
      exact h (hc ▸ List.mem_cons_self c t)
    simp [List.dropWhile_cons, hc]

theorem pyStripQuotes_of_not_mem (s : List Char) (h : squote ∉ s) :
    pyStripQuotes s = s := by
  unfold pyStripQuotes
  rw [dropWhile_squote_of_not_mem s h,
    dropWhile_squote_of_not_mem s.reverse (by simpa using h), List.reverse_reverse]

theorem pyReplaceQuote_of_not_mem (s : List Char) (h : squote ∉ s) :
    pyReplaceQuote s = s := by
  induction s with
  | nil => rfl
  | cons c t ih =>
    have hc : ¬(c == squote) = true := by
      simp only [beq_iff_eq]
      intro hc
      exact h (hc ▸ List.mem_cons_self c t)
    have ht : squote ∉ t := fun hm => h (List.mem_cons_of_mem c hm)
    have hc2 : ¬ c = squote := by simpa using hc
    have ih2 := ih ht
    unfold pyReplaceQuote at ih2 ⊢
    simp only [List.map_cons, List.flatten_cons]
    simp [hc2] at ih2 ⊢
    exact ih2

/-- C10 (amended): the two `format_value` helpers agree on every plain string
that contains no single quote (for a non-`NULL` value and an ordinary
column), both producing the single-quoted literal of the unchanged string;
they diverge exactly on strings containing quotes, which the bulk helper only
strips at the ends while the single-row helper doubles them. -/
theorem C10_format_value_agree (parse1 parse2 : List Char → Option (List Char))
    (s col : List Char) (hq : squote ∉ s) (hnull : s ≠ "NULL".data)
    (hab : col ≠ attachment_body) (hdate : col ∉ special_date_cols) :
    create_query_format_value parse1 (PyVal.pstr s) col =
      [squote] ++ s ++ [squote] ∧
    create_query_for_row_format_value parse2 (PyVal.pstr s) col =
      [squote] ++ s ++ [squote] := by
  constructor
  · unfold create_query_format_value
    simp [hnull, hab, hdate, pyStripQuotes_of_not_mem s hq]
  · unfold create_query_for_row_format_value
    simp [hnull, hab, hdate, pyReplaceQuote_of_not_mem s hq]

/-- Witness for C10 (amended) at a concrete quote-free string. -/
theorem C10_format_value_agree_witness :
    create_query_format_value noParse (PyVal.pstr "abc".data) "Y".data =
      [squote] ++ "abc".data ++ [squote] ∧
    create_query_for_row_format_value noParse (PyVal.pstr "abc".data) "Y".data =
      [squote] ++ "abc".data ++ [squote] :=
  C10_format_value_agree noParse noParse "abc".data "Y".data
    (by decide) (by decide) (by decide) (by decide)

theorem chat_loop_iter_trace (o : ChatOracle) (st : ChatState1) :
    (chat_loop_iter o st).1 = [] ∨
    (chat_loop_iter o st).1 = [Ev.startLLM, Ev.endLLM] ∨
    (chat_loop_iter o st).1 = [Ev.startLLM, Ev.endLLM, Ev.startRPC, Ev.endRPC] := by
  unfold chat_loop_iter
  split <;> split <;>
    try simp
  all_goals
    split
    · simp
    · split
      · split <;> simp
      · simp

/-- C7: at every point of a run of the first chat loop the event trace
alternates request issue and request return (with matching kinds): a new
model-API or tool-RPC request is only issued after the previous one has
returned, so at most one external request is ever outstanding. -/
theorem C7_single_outstanding_request (o : Nat → ChatOracle) (st : ChatState1)
    (n : Nat) : chk none (chat_loop_run o st n).1 = true := by
  induction n generalizing o st with
  | zero => rfl
  | succ n ih =>
    unfold chat_loop_run
    rcases htr : chat_loop_iter (o 0) st with ⟨tr, r⟩
    have hshape := chat_loop_iter_trace (o 0) st
    rw [htr] at hshape
    cases r with
    | error e =>
      rcases hshape with h | h | h <;> simp_all [chk]
    | ok st1 =>
      have ih2 := ih (fun i => o (i + 1)) st1
      rcases hshape with h | h | h <;> simp_all [chk]

/-- C4: in the second `chat_loop`, whenever the iteration reaches the
tool-call check and `check_tool_call` reports no tool call, the else branch
`messages.append({"role": "assistant", "content": llm_text_response})`
references the never-bound name `llm_text_response` and raises `NameError`
(the witness exhibits a concrete reachable input). -/
theorem C4_nameError_on_no_tool_call (o : ChatOracle2) (cl : Client)
    (msgs : List Msg) (doc : List Char)
    (h1 : pyLower (pyStripWs o.userInput) ∉ toggle_commands)
    (h2 : detect_datetime_request (pyStripWs o.userInput) = "none")
    (h3 : check_tool_call2
      (send_message2 o (pyStripWs o.userInput) o.docInput msgs).2 = none) :
    chat_loop_iter2 o cl msgs doc = Except.error PyError.nameError := by
  unfold chat_loop_iter2
  simp [h1, h2, h3]

/-- Witness for C4: the reachable path with user line `"hello"` and a model
response with no tool-use block ends in `NameError`. -/
theorem C4_nameError_on_no_tool_call_witness :
    chat_loop_iter2 oracle2_hello client0 [] [] = Except.error PyError.nameError :=
  C4_nameError_on_no_tool_call oracle2_hello client0 [] []
    (by decide) (by decide) (by decide)

/-- C6 counterexample: the iteration on the user line `"switch format"`
flips the client's `time_format_24hr` attribute, so not every attribute other
than the message list is preserved across an iteration. -/
theorem C6_counterexample :
    chat_loop_iter2 oracle2_toggle client0 [] [] =
      Except.ok ({ client0 with time_format_24hr := false }, [], []) ∧
    ({ client0 with time_format_24hr := false }).time_format_24hr ≠
      client0.time_format_24hr := by
  refine ⟨rfl, by decide⟩

/-- C6 (amended): across a completed iteration of the second chat loop the
tool list and the transport/session handles are unchanged, and
`time_format_24hr` is flipped exactly when the user line is one of the toggle
commands (and unchanged otherwise); the transcript list is the only other
state the loop body writes. -/
theorem C6_frame (o : ChatOracle2) (cl : Client) (msgs : List Msg)
    (doc : List Char) (cl2 : Client) (msgs2 : List Msg) (doc2 : List Char)
    (h : chat_loop_iter2 o cl msgs doc = Except.ok (cl2, msgs2, doc2)) :
    cl2.tools = cl.tools ∧ cl2.stdio = cl.stdio ∧ cl2.write = cl.write ∧
    cl2.session = cl.session ∧
    cl2.time_format_24hr =
      (if pyLower (pyStripWs o.userInput) ∈ toggle_commands then
        !cl.time_format_24hr
      else cl.time_format_24hr) := by
  unfold chat_loop_iter2 at h
  by_cases h1 : pyLower (pyStripWs o.userInput) ∈ toggle_commands
  · simp only [h1, if_true] at h
    rw [Except.ok.injEq, Prod.mk.injEq, Prod.mk.injEq] at h
    obtain ⟨hcl, -, -⟩ := h
    subst hcl
    simp [h1]
  · simp only [h1, if_false] at h
    by_cases h2 : detect_datetime_request (pyStripWs o.userInput) = "none"
    · simp only [h2, ne_eq, not_true_eq_false, if_false] at h
      cases hc : check_tool_call2
          (send_message2 o (pyStripWs o.userInput) o.docInput msgs).2 with
      | none => simp [hc] at h
      | some b =>
        simp only [hc] at h
        cases hg : o.toolResult.content[0]? <;> simp [hg] at h
    · have h2b : detect_datetime_request (pyStripWs o.userInput) ≠ "none" := h2
      simp only [h2b, ne_eq, not_false_eq_true, if_true] at h
      rw [Except.ok.injEq, Prod.mk.injEq, Prod.mk.injEq] at h
      obtain ⟨hcl, -, -⟩ := h
      subst hcl
      simp [h1]

/-- Witness for C6 (amended) at the concrete toggle iteration. -/
theorem C6_frame_witness :
    ({ client0 with time_format_24hr := false } : Client).tools = client0.tools ∧
    ({ client0 with time_format_24hr := false } : Client).stdio = client0.stdio ∧
    ({ client0 with time_format_24hr := false } : Client).write = client0.write ∧
    ({ client0 with time_format_24hr := false } : Client).session = client0.session ∧
    ({ client0 with time_format_24hr := false } : Client).time_format_24hr =
      (if pyLower (pyStripWs oracle2_toggle.userInput) ∈ toggle_commands then
        !client0.time_format_24hr
      else client0.time_format_24hr) :=
  C6_frame oracle2_toggle client0 [] []
    { client0 with time_format_24hr := false } [] [] rfl

/-- C5: both chat loops only append to the transcript: for every completed
iteration the messages list afterwards is the list before followed by the
newly produced entries (so existing entries are never modified, removed or
reordered, each entry is a role/content record by construction of `Msg`, and
list order is production order). -/
theorem C5_transcript_append_only :
    (∀ (o : ChatOracle) (st st2 : ChatState1) (tr : List Ev),
      chat_loop_iter o st = (tr, Except.ok st2) →
      st.messages <+: st2.messages) ∧
    (∀ (o : ChatOracle2) (cl : Client) (msgs : List Msg) (doc : List Char)
      (cl2 : Client) (msgs2 : List Msg) (doc2 : List Char),
      chat_loop_iter2 o cl msgs doc = Except.ok (cl2, msgs2, doc2) →
      msgs <+: msgs2) := by
  constructor
  · intro o st st2 tr h
    unfold chat_loop_iter at h
    by_cases hu : st.user_message = []
    · simp only [hu, if_true] at h
      rw [Prod.mk.injEq, Except.ok.injEq] at h
      obtain ⟨-, hst⟩ := h
      subst hst
      exact List.prefix_refl _
    · have hvis : ∀ doc, ∃ pre,
          (send_message1 o doc st.user_message st.messages).1 = st.messages ++ pre := by
        intro doc
        unfold send_message1
        by_cases hm : st.messages = []
        · simp [hm]
        · simp [hm]
      simp only [hu, if_false] at h
      split at h
      · simp at h
      · split at h
        · split at h
          · simp at h
          · rw [Prod.mk.injEq, Except.ok.injEq] at h
            obtain ⟨-, hst⟩ := h
            subst hst
            obtain ⟨pre, hpre⟩ := hvis
              (if st.document_content = [] then fake_news_story else st.document_content)
            simp [hpre, List.append_assoc]
        · rw [Prod.mk.injEq, Except.ok.injEq] at h
          obtain ⟨-, hst⟩ := h
          subst hst
          obtain ⟨pre, hpre⟩ := hvis
            (if st.document_content = [] then fake_news_story else st.document_content)
          simp [hpre, List.append_assoc]
  · intro o cl msgs doc cl2 msgs2 doc2 h
    unfold chat_loop_iter2 at h
    by_cases h1 : pyLower (pyStripWs o.userInput) ∈ toggle_commands
    · simp only [h1, if_true] at h
      rw [Except.ok.injEq, Prod.mk.injEq, Prod.mk.injEq] at h
      obtain ⟨-, hm, -⟩ := h
      subst hm
      exact List.prefix_refl _
    · simp only [h1, if_false] at h
      by_cases h2 : detect_datetime_request (pyStripWs o.userInput) = "none"
      · simp only [h2, ne_eq, not_true_eq_false, if_false] at h
        cases hc : check_tool_call2
            (send_message2 o (pyStripWs o.userInput) o.docInput msgs).2 with
        | none => simp [hc] at h
        | some b =>
          simp only [hc] at h
          cases hg : o.toolResult.content[0]? <;> simp [hg] at h
      · have h2b : detect_datetime_request (pyStripWs o.userInput) ≠ "none" := h2
        simp only [h2b, ne_eq, not_false_eq_true, if_true] at h
        rw [Except.ok.injEq, Prod.mk.injEq, Prod.mk.injEq] at h
        obtain ⟨-, hm, -⟩ := h
        subst hm
        exact List.prefix_refl _

/-- Witness for C5 at concrete completed iterations of both loops. -/
theorem C5_transcript_append_only_witness :
    ([⟨"user", "hi".data⟩] : List Msg) <+: [⟨"user", "hi".data⟩] ∧
    ([] : List Msg) <+: [] :=
  ⟨C5_transcript_append_only.1 ⟨fun _ => ⟨"end_turn", []⟩, fun _ _ => ⟨[]⟩, []⟩
      ⟨[⟨"user", "hi".data⟩], [], "d".data⟩
      ⟨[⟨"user", "hi".data⟩], [], "d".data⟩ [] rfl,
   C5_transcript_append_only.2 oracle2_toggle client0 [] []
      { client0 with time_format_24hr := false } [] [] rfl⟩

end SpecProof
